import Mathlib

/-!
Verification of the VST2 plugin discovery-and-cache subsystem
(`libs/ardour/vst2_scan.cc`).

The C++ code is shallowly embedded: the external VST plugin (reached only
through its `dispatcher` callback and the `AEffect` record) is modelled as a
record of response functions, the filesystem as a partial map from paths to
file metadata, and the PBD XML layer as typed key/value property lists.
Every definition mirrors the corresponding source function; deviations forced
by missing external code are marked `Modelled from the spec:` in the doc
comment.
-/

namespace VST2Scan

/- ----------------------------------------------------------------- -/
/- Plugin-side data model: the AEffect seen through its dispatcher.   -/
/- ----------------------------------------------------------------- -/

/-- Flag bit `effFlagsHasEditor` from the VST headers. -/
def effFlagsHasEditor : Nat := 1

/-- Flag bit `effFlagsCanReplacing` from the VST headers. -/
def effFlagsCanReplacing : Nat := 16

/-- Flag bit `effFlagsIsSynth` from the VST headers. -/
def effFlagsIsSynth : Nat := 256

/-- Plugin category codes `kPlugCateg*` from the VST headers. -/
def kPlugCategEffect : Int := 1
def kPlugCategSynth : Int := 2
def kPlugCategAnalysis : Int := 3
def kPlugCategMastering : Int := 4
def kPlugCategSpacializer : Int := 5
def kPlugCategRoomFx : Int := 6
def kPlugSurroundFx : Int := 7
def kPlugCategRestoration : Int := 8
def kPlugCategOfflineProcess : Int := 9
def kPlugCategShell : Int := 10
def kPlugCategGenerator : Int := 11

/-- The behaviour of one instantiated plugin (`AEffect` plus the responses of
its `dispatcher` to the opcodes the scanner uses).  A string-query opcode that
writes into a caller-supplied buffer is modelled as `Option String`: `none`
means the plugin left the buffer untouched, `some s` means it wrote `s`. -/
structure AEffect where
  flags : Nat
  uniqueID : Int
  numInputs : Int
  numOutputs : Int
  numParams : Nat
  /-- response to `effGetEffectName` (buffer pre-filled with `""`). -/
  effectName : Option String
  /-- response to `effGetProductString` (buffer pre-filled with `""`). -/
  productString : Option String
  /-- response to `effGetVendorString` (buffer pre-filled with `"Unknown"`). -/
  vendorString : Option String
  /-- response to `effGetPlugCategory`. -/
  plugCategory : Int
  /-- response to `effGetVstVersion`. -/
  vstVersion : Int
  /-- response to `effCanDo` for a given capability string. -/
  canDo : String → Int
  /-- response to `effGetParamName` for index `i`
  (buffer pre-filled with `"No Name"`). -/
  getParamName : Nat → Option String
  /-- successive responses to `effShellGetNextPlugin`: returned id and the
  string written into the name buffer (pre-filled with `"Unknown"`). The C
  loop keeps calling until the returned id is 0; responses past the end of
  this list are modelled as ending the enumeration. -/
  shellNext : List (Int × Option String)

/-- `vstfx_midi_input` (vst2_scan.cc lines 61-75): the plugin wants MIDI input
iff it has the synth flag or answers one of the three receive-side
`effCanDo` queries positively. -/
def vstfx_midi_input (p : AEffect) : Bool :=
  if (p.flags.land effFlagsIsSynth ≠ 0)
      || (p.canDo "receiveVstEvents" > 0)
      || (p.canDo "receiveVstMidiEvent" > 0)
      || (p.canDo "receiveVstMidiEvents" > 0) then
    true
  else
    false

/-- `vstfx_midi_output` (vst2_scan.cc lines 77-95): the VST version is queried
first; only if it is at least 2 are the three send-side `effCanDo` queries
made. -/
def vstfx_midi_output (p : AEffect) : Bool :=
  let vst_version := p.vstVersion
  if vst_version ≥ 2 then
    if (p.canDo "sendVstEvents" > 0)
        || (p.canDo "sendVstMidiEvent" > 0)
        || (p.canDo "sendVstMidiEvents" > 0) then
      true
    else
      false
  else
    false

/-- The capability strings passed to `effCanDo` during `vstfx_midi_output`, in
call order; the C `||` operator short-circuits, and nothing is queried when
the version check fails. -/
def vstfx_midi_output_queried (p : AEffect) : List String :=
  if p.vstVersion ≥ 2 then
    if p.canDo "sendVstEvents" > 0 then ["sendVstEvents"]
    else if p.canDo "sendVstMidiEvent" > 0 then
      ["sendVstEvents", "sendVstMidiEvent"]
    else
      ["sendVstEvents", "sendVstMidiEvent", "sendVstMidiEvents"]
  else
    []

/-- The `switch` on `effGetPlugCategory` in `vstfx_parse_vst_state`
(vst2_scan.cc lines 185-199). -/
def categoryName (c : Int) : String :=
  if c = kPlugCategEffect then "Effect"
  else if c = kPlugCategSynth then "Instrument"
  else if c = kPlugCategAnalysis then "Analyser"
  else if c = kPlugCategMastering then "Mastering"
  else if c = kPlugCategSpacializer then "Spatial"
  else if c = kPlugCategRoomFx then "RoomFx"
  else if c = kPlugSurroundFx then "SurroundFx"
  else if c = kPlugCategRestoration then "Restoration"
  else if c = kPlugCategOfflineProcess then "Offline"
  else if c = kPlugCategShell then "Shell"
  else if c = kPlugCategGenerator then "Generator"
  else "Unknown"

/-- The probe-side plugin record `VSTInfo` filled by `vstfx_parse_vst_state`. -/
structure VSTInfo where
  name : String
  creator : String
  Category : String
  UniqueID : Int
  numInputs : Int
  numOutputs : Int
  numParams : Nat
  wantMidi : Nat
  hasEditor : Bool
  isInstrument : Bool
  canProcessReplacing : Bool
  ParamNames : List String
  ParamLabels : List String
  deriving Repr, DecidableEq

/-- The parameter loop of `vstfx_parse_vst_state` (vst2_scan.cc lines
220-235): for `i = 0 .. n-1` the name buffer is pre-filled with `"No Name"`
and passed to `effGetParamName`; the `effGetParamLabel` query is commented out
in the source, so the label buffer keeps its `"No Label"` pre-fill. -/
def paramLoop (p : AEffect) : Nat → List String × List String
  | 0 => ([], [])
  | n + 1 =>
    let r := paramLoop p n
    (r.1 ++ [(p.getParamName n).getD "No Name"], r.2 ++ ["No Label"])

/-- `vstfx_parse_vst_state` (vst2_scan.cc lines 138-237), the non-Apple build
(the `__APPLE__`-only editor override is compiled out on the platform
modelled here).  `handleName` is `vstfx->handle->name`, the module-derived
name used as last fallback for the display name.  The `malloc` failure path
is not modelled (allocation is assumed to succeed). -/
def vstfx_parse_vst_state (handleName : String) (p : AEffect) : VSTInfo :=
  let name0 := (p.effectName).getD ""
  let name1 := if name0.length = 0 then (p.productString).getD "" else name0
  let infoName := if name1.length = 0 then handleName else name1
  let creator0 := (p.vendorString).getD "Unknown"
  let infoCreator := if creator0.length = 0 then "Unknown" else creator0
  let pl := paramLoop p p.numParams
  { name := infoName
    creator := infoCreator
    Category := categoryName p.plugCategory
    UniqueID := p.uniqueID
    numInputs := p.numInputs
    numOutputs := p.numOutputs
    numParams := p.numParams
    wantMidi := (if vstfx_midi_input p then 1 else 0)
                  ||| (if vstfx_midi_output p then 2 else 0)
    hasEditor := p.flags.land effFlagsHasEditor ≠ 0
    isInstrument := p.flags.land effFlagsIsSynth ≠ 0
    canProcessReplacing := p.flags.land effFlagsCanReplacing ≠ 0
    ParamNames := pl.1
    ParamLabels := pl.2 }

/- ----------------------------------------------------------------- -/
/- Shell expansion (`vstfx_info_from_plugin` and the sub-probe).      -/
/- ----------------------------------------------------------------- -/

/-- The `do … while (id != 0)` enumeration loop of `vstfx_info_from_plugin`
(vst2_scan.cc lines 266-270): each iteration pre-fills the name buffer with
`"Unknown"`, queries `effShellGetNextPlugin`, and pushes the `(id, name)`
pair — including the terminating pair whose id is 0. -/
def collectShellIds : List (Int × Option String) → List (Int × String)
  | [] => []
  | (id, nm) :: rest =>
    let entry := (id, nm.getD "Unknown")
    if id = 0 then [entry] else entry :: collectShellIds rest

/-- `infos->back()->name` replacement (vst2_scan.cc lines 303-311): the last
descriptor in the list gets its name overwritten. -/
def replaceLastName : List VSTInfo → String → List VSTInfo
  | [], _ => []
  | [x], nm => [{ x with name := nm }]
  | x :: y :: rest, nm => x :: replaceLastName (y :: rest) nm

/-- The outcome of a load-and-instantiate attempt for one requested
sub-plugin id: `none` models a failed `*_load`/`*_instantiate`, `some p`
the instantiated plugin's behaviour.  The loaders themselves
(`fst_load`/`vstfx_load`/`mac_vst_load` and friends) are external to
vst2_scan.cc. -/
def ProbeEnv : Type := Int → Option AEffect

/-- The `for` loop over the collected shell ids (vst2_scan.cc lines 293-313):
entries with id 0 are skipped; every other id is passed to the sub-probe
`subProbe` (a re-run of `vstfx_instantiate_and_get_info` with that id); on
success the name of the last appended descriptor is overwritten with the
enumerated name, defaulting to `"Unknown"` when that name is empty.  The
second component of the result is the list of ids actually passed to the
sub-probe (ghost instrumentation), prefixed to whatever ids the sub-probe
itself probed. -/
def shellLoopAux (subProbe : Int → List VSTInfo → Bool × List VSTInfo × List Int) :
    List (Int × String) → List VSTInfo → List VSTInfo × List Int
  | [], infos => (infos, [])
  | (id, nm) :: rest, infos =>
    if id = 0 then shellLoopAux subProbe rest infos
    else
      let r := subProbe id infos
      let infos3 := if r.1 then
          replaceLastName r.2.1 (if nm.length = 0 then "Unknown" else nm)
        else r.2.1
      let rr := shellLoopAux subProbe rest infos3
      (rr.1, id :: (r.2.2 ++ rr.2))

/-- `vstfx_info_from_plugin` (vst2_scan.cc lines 245-338) with the recursive
sub-probe call passed as a parameter.  The outer descriptor is pushed first;
if its category starts with `"Shell"` (`strncmp (info->Category, "Shell", 5)`)
the shell ids are enumerated, the outer instance is closed, and each non-zero
id is re-probed.  The guard `vstfx->handle->plugincnt == 1` is modelled as
true: every probe loads the binary freshly, giving a handle with exactly one
instance.  The result carries (success, descriptor list, probed ids). -/
def vstfx_info_from_plugin_aux
    (subProbe : Int → List VSTInfo → Bool × List VSTInfo × List Int)
    (handleName : String) (p : AEffect) (infos : List VSTInfo) :
    Bool × List VSTInfo × List Int :=
  let info := vstfx_parse_vst_state handleName p
  let infos1 := infos ++ [info]
  if info.Category.take 5 = "Shell" then
    let ids := collectShellIds p.shellNext
    let rr := shellLoopAux subProbe ids infos1
    (true, rr.1, rr.2)
  else
    (true, infos1, [])

/-- `vstfx_instantiate_and_get_info` (vst2_scan.cc lines 340-407): load and
instantiate the binary while the process-wide loading id is set to
`uniqueID`, then extract info via `vstfx_info_from_plugin`.  `env` abstracts
the external load/instantiate outcome per requested id; `fuel` bounds the
recursion depth through nested shells (the C code recurses without bound). -/
def vstfx_instantiate_and_get_info :
    Nat → ProbeEnv → String → Int → List VSTInfo → Bool × List VSTInfo × List Int
  | 0, _, _, _, infos => (false, infos, [])
  | Nat.succ fuel, env, handleName, uniqueID, infos =>
    match env uniqueID with
    | none => (false, infos, [])
    | some p =>
      vstfx_info_from_plugin_aux
        (vstfx_instantiate_and_get_info fuel env handleName) handleName p infos

/-- `vstfx_info_from_plugin` proper, with sub-probes running
`vstfx_instantiate_and_get_info` at the given fuel. -/
def vstfx_info_from_plugin (fuel : Nat) (env : ProbeEnv) (handleName : String)
    (p : AEffect) (infos : List VSTInfo) : Bool × List VSTInfo × List Int :=
  vstfx_info_from_plugin_aux
    (vstfx_instantiate_and_get_info fuel env handleName) handleName p infos

/- ----------------------------------------------------------------- -/
/- The process-wide loading-id state around one instantiation.        -/
/- ----------------------------------------------------------------- -/

/-- State-trace model of `vstfx_instantiate_and_get_info` (vst2_scan.cc lines
340-407) focused on the global `vstfx_current_loading_id` (line 55).
`loadOk`/`instOk` abstract the external load and instantiate outcomes,
`s` is the value of the global at entry.  Returned: (whether the call
proceeded past instantiation, the final value of the global, the values the
global held at each instantiation attempt).  The source sets the global to
`uniqueID` right before the instantiate switch and back to 0 right after it,
on both the success and the failure path; a failed load returns before
either assignment. -/
def vstfx_instantiate_loading_id (loadOk instOk : Bool) (uniqueID : Int)
    (s : Int) : Bool × Int × List Int :=
  if loadOk = false then
    (false, s, [])
  else
    let s1 := uniqueID
    let attempts := [s1]
    let s2 := (0 : Int)
    if instOk = false then (false, s2, attempts) else (true, s2, attempts)

/- ----------------------------------------------------------------- -/
/- XML serialization of VST2Info.                                     -/
/- ----------------------------------------------------------------- -/

/-- A typed XML property value.  Modelled from the spec: the PBD
`XMLNode::set_property`/`get_property` machinery is not under src/; per the
spec's cache-record description, each key carries an integer, string or
boolean value, and `get_property` succeeds exactly when the key is present
with the requested type. -/
inductive XMLValue where
  | str (s : String)
  | int (i : Int)
  | bool (b : Bool)
  deriving Repr, DecidableEq

/-- Set-or-replace on a property list (last write wins, order preserved). -/
def setProp : List (String × XMLValue) → String → XMLValue → List (String × XMLValue)
  | [], k, v => [(k, v)]
  | (k0, v0) :: rest, k, v =>
    if k0 = k then (k, v) :: rest else (k0, v0) :: setProp rest k v

/-- Modelled from the spec: an XML element, reduced to the name and property
list the cache serializer uses. -/
structure XMLNode where
  name : String
  props : List (String × XMLValue)
  deriving Repr, DecidableEq

def XMLNode.set_property (n : XMLNode) (k : String) (v : XMLValue) : XMLNode :=
  { n with props := setProp n.props k v }

def XMLNode.get_str (n : XMLNode) (k : String) : Option String :=
  match n.props.lookup k with
  | some (XMLValue.str s) => some s
  | _ => none

def XMLNode.get_int (n : XMLNode) (k : String) : Option Int :=
  match n.props.lookup k with
  | some (XMLValue.int i) => some i
  | _ => none

def XMLNode.get_bool (n : XMLNode) (k : String) : Option Bool :=
  match n.props.lookup k with
  | some (XMLValue.bool b) => some b
  | _ => none

/-- `ARDOUR::VST2Info` (fields as read/written by the constructor and
`state()` in vst2_scan.cc lines 571-617). -/
structure VST2Info where
  id : Int
  name : String
  creator : String
  category : String
  version : String
  n_inputs : Int
  n_outputs : Int
  has_midi_input : Bool
  can_process_replace : Bool
  has_editor : Bool
  deriving Repr, DecidableEq

/-- `VST2Info::state` (vst2_scan.cc lines 601-617): a fresh `"VST2Info"` node
with the ten properties set in source order. -/
def VST2Info.state (i : VST2Info) : XMLNode :=
  ((((((((((XMLNode.mk "VST2Info" []).set_property "id" (XMLValue.int i.id)
    ).set_property "name" (XMLValue.str i.name)
    ).set_property "creator" (XMLValue.str i.creator)
    ).set_property "category" (XMLValue.str i.category)
    ).set_property "version" (XMLValue.str i.version)
    ).set_property "n_inputs" (XMLValue.int i.n_inputs)
    ).set_property "n_outputs" (XMLValue.int i.n_outputs)
    ).set_property "has_midi_input" (XMLValue.bool i.has_midi_input)
    ).set_property "can_process_replace" (XMLValue.bool i.can_process_replace)
    ).set_property "has_editor" (XMLValue.bool i.has_editor)

/-- The `VST2Info (XMLNode const&)` constructor (vst2_scan.cc lines 571-599):
`none` models `throw failed_constructor ()`.  The C++ code reads all ten
properties, OR-ing the failures into `err`, and throws iff the node name is
not `"VST2Info"` or `err` is set; it never hands back a partially populated
object, which the `Option` return models. -/
def VST2Info.fromXML (n : XMLNode) : Option VST2Info :=
  if n.name = "VST2Info" then
    (n.get_int "id").bind fun id =>
    (n.get_str "name").bind fun name =>
    (n.get_str "creator").bind fun creator =>
    (n.get_str "category").bind fun category =>
    (n.get_str "version").bind fun version =>
    (n.get_int "n_inputs").bind fun n_inputs =>
    (n.get_int "n_outputs").bind fun n_outputs =>
    (n.get_bool "has_midi_input").bind fun has_midi_input =>
    (n.get_bool "can_process_replace").bind fun can_process_replace =>
    (n.get_bool "has_editor").map fun has_editor =>
    { id := id, name := name, creator := creator, category := category
      version := version, n_inputs := n_inputs, n_outputs := n_outputs
      has_midi_input := has_midi_input
      can_process_replace := can_process_replace, has_editor := has_editor }
  else
    none

/- ----------------------------------------------------------------- -/
/- Filesystem model, cache path, validity, touch, save, orchestrator. -/
/- ----------------------------------------------------------------- -/

/-- Metadata of one filesystem entry (the parts of `GStatBuf` the scanner
reads, plus the regular-file bit `g_file_test` can check). -/
structure FileInfo where
  isRegular : Bool
  mtime : Int
  atime : Int
  deriving Repr, DecidableEq

/-- The filesystem, as a partial map from paths to metadata; `g_stat`
succeeds exactly on mapped paths. -/
structure FS where
  files : String → Option FileInfo

/-- Overwrite (or create) one entry. -/
def FS.setFile (fs : FS) (f : String) (fi : FileInfo) : FS :=
  ⟨fun g => if g = f then some fi else fs.files g⟩

/-- `Glib::file_test (f, FILE_TEST_EXISTS | FILE_TEST_IS_REGULAR)`
(vst2_scan.cc line 479).  glib ORs the tests in the bitfield, so the
combined test passes whenever the path exists at all — the regular-file
test never rejects anything that exists. -/
def fileTestExistsOrRegular (fs : FS) (f : String) : Bool :=
  match fs.files f with
  | some fi => fi.isRegular || true
  | none => false

/-- Modelled from the spec: the hash step of the cache-path resolver
(`#include "sha1.c"` — the digest implementation is not under src/).  The
spec asks for a deterministic, injective-in-practice hex encoding of the
path's bytes; the digest is modelled as the identity over those bytes,
hex-encoded. -/
def hexEncode (s : String) : String :=
  String.join (s.data.map (fun c => (Nat.toDigits 16 c.toNat).asString))

/-- `ARDOUR::vst2_cache_file` (vst2_scan.cc lines 464-473): hex digest of the
path joined with the cache directory plus the `".v2i"` extension.  The cache
directory (`vst2_info_cache_dir`) is modelled as the fixed name `"vst"`; its
lazy-creation side effect is not modelled. -/
def vst2_cache_file (path : String) : String :=
  "vst/" ++ hexEncode path ++ ".v2i"

/-- `ARDOUR::vst2_valid_cache_file` (vst2_scan.cc lines 475-502): empty
string means "no valid cache".  The cache file must pass the glib file test,
both `g_stat` calls must succeed, and the binary's mtime must be strictly
older than the cache file's (`sb_vst.st_mtime < sb_v3i.st_mtime`). -/
def vst2_valid_cache_file (fs : FS) (path : String) (verbose : Bool) : String :=
  let cache_file := vst2_cache_file path
  if fileTestExistsOrRegular fs cache_file = false then ""
  else
    match fs.files path, fs.files cache_file with
    | some sb_vst, some sb_v3i =>
      if sb_vst.mtime < sb_v3i.mtime then cache_file else ""
    | _, _ => ""

/-- `touch_cachefile` (vst2_scan.cc lines 504-515): when both stats succeed,
rewrite the cache file's times with `actime` preserved and `modtime` set to
`max (binary mtime, cache mtime)`; otherwise do nothing. -/
def touch_cachefile (fs : FS) (path cache_file : String) : FS :=
  match fs.files path, fs.files cache_file with
  | some sb_vst, some sb_v3i =>
    fs.setFile cache_file
      { sb_v3i with mtime := max sb_vst.mtime sb_v3i.mtime, atime := sb_v3i.atime }
  | _, _ => fs

/-- `XMLTree::write` outcome.  Modelled from the spec: the XML tree writer is
not under src/; a successful write creates/overwrites the cache file as a
regular file stamped with the current time `now`, a failed write (disk full,
permissions) leaves the filesystem unchanged and reports false. -/
def xml_tree_write (fs : FS) (f : String) (writeOk : Bool) (now : Int) :
    Bool × FS :=
  if writeOk then (true, fs.setFile f { isRegular := true, mtime := now, atime := now })
  else (false, fs)

/-- `vst2_save_cache_file` (vst2_scan.cc lines 517-534): write the document;
on failure report false without touching anything, on success run
`touch_cachefile` and report true. -/
def vst2_save_cache_file (fs : FS) (path : String) (writeOk : Bool) (now : Int) :
    Bool × FS :=
  let cache_file := vst2_cache_file path
  let wr := xml_tree_write fs cache_file writeOk now
  if wr.1 = false then (false, wr.2)
  else (true, touch_cachefile wr.2 path cache_file)

/-- The `ARDOUR::PluginType` values the scanner dispatches on. -/
inductive PluginType where
  | Windows_VST
  | LXVST
  | MacVST
  deriving Repr, DecidableEq

/-- `discover_vst2` (vst2_scan.cc lines 409-437): `ok` is initialised to
`false` and the whole dispatch body is compiled out (`#if 0`), so the
function returns `false` for every input and never appends to `rv` —
modelled by returning the untouched empty result list. -/
def discover_vst2 (path : String) (ty : PluginType) (verbose : Bool) :
    Bool × List VST2Info :=
  let ok := false
  (ok, [])

/-- `ARDOUR::vst2_scan_and_cache` (vst2_scan.cc lines 536-566) with the probe
result as a parameter (the source calls `discover_vst2` there;
`vst2_scan_and_cache` below instantiates it).  Returns (success, callback
invocations in order, resulting filesystem).  If the probe reports failure
or yields no descriptors the root document is deleted and failure returned
with the filesystem untouched; otherwise the callback fires once per
descriptor and `vst2_save_cache_file` runs. -/
def vst2_scan_and_cache_with (probe : Bool × List VST2Info) (fs : FS)
    (path : String) (writeOk : Bool) (now : Int) :
    Bool × List (String × VST2Info) × FS :=
  match probe with
  | (false, _) => (false, [], fs)
  | (true, nfo) =>
    if nfo.isEmpty then (false, [], fs)
    else
      let calls := nfo.map (fun i => (path, i))
      let sv := vst2_save_cache_file fs path writeOk now
      (sv.1, calls, sv.2)

/-- `ARDOUR::vst2_scan_and_cache` proper: the probe step is `discover_vst2`. -/
def vst2_scan_and_cache (fs : FS) (path : String) (ty : PluginType)
    (verbose : Bool) (writeOk : Bool) (now : Int) :
    Bool × List (String × VST2Info) × FS :=
  vst2_scan_and_cache_with (discover_vst2 path ty verbose) fs path writeOk now

/- ----------------------------------------------------------------- -/
/- Theorems.                                                          -/
/- ----------------------------------------------------------------- -/

/-- C8: `vstfx_midi_input` is true exactly when the synth flag is set or one
of the three receive-side capability strings is answered positively;
`vstfx_midi_output` is true exactly when the reported VST version is at
least 2 and a send-side capability string is answered positively (so output
capability implies version ≥ 2); and on a version-1 plugin no send-side
capability string is queried at all. -/
theorem midi_capability_extraction (p : AEffect) :
    (vstfx_midi_input p = true ↔
      (p.flags.land effFlagsIsSynth ≠ 0 ∨ p.canDo "receiveVstEvents" > 0 ∨
        p.canDo "receiveVstMidiEvent" > 0 ∨ p.canDo "receiveVstMidiEvents" > 0)) ∧
    (vstfx_midi_output p = true ↔
      (p.vstVersion ≥ 2 ∧ (p.canDo "sendVstEvents" > 0 ∨
        p.canDo "sendVstMidiEvent" > 0 ∨ p.canDo "sendVstMidiEvents" > 0))) ∧
    (p.vstVersion < 2 → vstfx_midi_output_queried p = []) := by
  refine ⟨?_, ?_, ?_⟩
  · unfold vstfx_midi_input
    split <;> simp_all <;> tauto
  · simp only [vstfx_midi_output]
    by_cases hv : p.vstVersion ≥ 2
    · rw [if_pos hv]
      split <;> simp_all <;> tauto
    · rw [if_neg hv]
      simp [hv]
  · intro h
    unfold vstfx_midi_output_queried
    rw [if_neg (by omega)]

/-- C8 witness: a concrete version-1 plugin for which no send-side capability
string is queried. -/
theorem midi_capability_extraction_witness :
    vstfx_midi_output_queried
      { flags := 0, uniqueID := 1, numInputs := 0, numOutputs := 0,
        numParams := 0, effectName := none, productString := none,
        vendorString := none, plugCategory := 1, vstVersion := 1,
        canDo := fun _ => 1, getParamName := fun _ => none,
        shellNext := [] } = [] :=
  (midi_capability_extraction _).2.2 (by decide)

/-- Closed form of the parameter loop: names come from `effGetParamName` with
the `"No Name"` pre-fill as default, labels are always the `"No Label"`
pre-fill. -/
theorem paramLoop_spec (p : AEffect) (n : Nat) :
    paramLoop p n =
      ((List.range n).map (fun i => (p.getParamName i).getD "No Name"),
        List.replicate n "No Label") := by
  induction n with
  | zero => rfl
  | succ n ih =>
    simp [paramLoop, ih, List.range_succ, List.replicate_succ']

/-- C9: the descriptor's `ParamNames` and `ParamLabels` are exactly
`numParams` long; the i-th name is the plugin's answer to `effGetParamName i`
defaulting to `"No Name"` when the buffer is left untouched, and every label
is the placeholder `"No Label"` because the label query is skipped. -/
theorem param_lists_aligned (handleName : String) (p : AEffect) :
    (vstfx_parse_vst_state handleName p).ParamNames.length = p.numParams ∧
    (vstfx_parse_vst_state handleName p).ParamLabels.length = p.numParams ∧
    (vstfx_parse_vst_state handleName p).ParamNames =
      (List.range p.numParams).map (fun i => (p.getParamName i).getD "No Name") ∧
    (vstfx_parse_vst_state handleName p).ParamLabels =
      List.replicate p.numParams "No Label" ∧
    (vstfx_parse_vst_state handleName p).numParams = p.numParams := by
  simp [vstfx_parse_vst_state, paramLoop_spec]

/-- C10: every call that reaches the instantiation step (the load succeeded)
holds the process-wide loading id at exactly the requested `uniqueID` during
the single instantiation attempt and leaves it cleared to 0 afterwards, on
the success path and on the failure path alike. -/
theorem loading_id_set_and_cleared (loadOk instOk : Bool) (uniqueID s : Int)
    (h : loadOk = true) :
    (vstfx_instantiate_loading_id loadOk instOk uniqueID s).2 =
      (0, [uniqueID]) := by
  subst h
  unfold vstfx_instantiate_loading_id
  cases instOk <;> simp

/-- C10 witness: a concrete failed instantiation still clears the loading id
back to 0 after attempting with it set to 42. -/
theorem loading_id_set_and_cleared_witness :
    (vstfx_instantiate_loading_id true false 42 7).2 = (0, [42]) :=
  loading_id_set_and_cleared true false 42 7 rfl

/-- C6: serializing a `VST2Info` with `state()` and deserializing the node
through the `VST2Info (XMLNode const&)` constructor reproduces every field
exactly, for every descriptor (including empty creator strings and category
`"Unknown"`, which are just particular field values). -/
theorem vst2info_roundtrip (i : VST2Info) :
    VST2Info.fromXML i.state = some i := rfl

/-- C7: deserialization is strict — the constructor yields a descriptor iff
the node is named `"VST2Info"` and every one of the ten expected properties
is present with the correct type; otherwise it throws (`none`), and no
partially populated descriptor is ever returned. -/
theorem vst2info_strict_deserialization (n : XMLNode) :
    (VST2Info.fromXML n).isSome = true ↔
      (n.name = "VST2Info" ∧
        (n.get_int "id").isSome = true ∧
        (n.get_str "name").isSome = true ∧
        (n.get_str "creator").isSome = true ∧
        (n.get_str "category").isSome = true ∧
        (n.get_str "version").isSome = true ∧
        (n.get_int "n_inputs").isSome = true ∧
        (n.get_int "n_outputs").isSome = true ∧
        (n.get_bool "has_midi_input").isSome = true ∧
        (n.get_bool "can_process_replace").isSome = true ∧
        (n.get_bool "has_editor").isSome = true) := by
  unfold VST2Info.fromXML
  by_cases h : n.name = "VST2Info"
  · rw [if_pos h]
    simp only [h, true_and]
    cases n.get_int "id"
    · simp
    · simp only [Option.some_bind, Option.isSome_some, true_and]
      cases n.get_str "name"
      · simp
      · simp only [Option.some_bind, Option.isSome_some, true_and]
        cases n.get_str "creator"
        · simp
        · simp only [Option.some_bind, Option.isSome_some, true_and]
          cases n.get_str "category"
          · simp
          · simp only [Option.some_bind, Option.isSome_some, true_and]
            cases n.get_str "version"
            · simp
            · simp only [Option.some_bind, Option.isSome_some, true_and]
              cases n.get_int "n_inputs"
              · simp
              · simp only [Option.some_bind, Option.isSome_some, true_and]
                cases n.get_int "n_outputs"
                · simp
                · simp only [Option.some_bind, Option.isSome_some, true_and]
                  cases n.get_bool "has_midi_input"
                  · simp
                  · simp only [Option.some_bind, Option.isSome_some, true_and]
                    cases n.get_bool "can_process_replace"
                    · simp
                    · simp only [Option.some_bind, Option.isSome_some, true_and]
                      cases n.get_bool "has_editor"
                      · simp
                      · simp
  · rw [if_neg h]
    simp [h]

/-- C1: because the dispatch body of `discover_vst2` is compiled out it
returns `false` with an empty result for every input, so
`vst2_scan_and_cache` fails for every path, plugin type and verbosity flag,
never invokes the notification callback, and leaves the filesystem (hence
the cache) untouched. -/
theorem scan_and_cache_always_fails (fs : FS) (path : String)
    (ty : PluginType) (verbose writeOk : Bool) (now : Int) :
    discover_vst2 path ty verbose = (false, []) ∧
    vst2_scan_and_cache fs path ty verbose writeOk now = (false, [], fs) :=
  ⟨rfl, rfl⟩

/-- C4: whenever the probe step hands the orchestrator zero descriptors
(whatever its boolean outcome), `vst2_scan_and_cache` returns failure, fires
no callback, and writes no cache file — the filesystem is returned
unchanged and the partially built document is discarded. -/
theorem scan_and_cache_zero_descriptors (ok : Bool) (fs : FS) (path : String)
    (writeOk : Bool) (now : Int) :
    vst2_scan_and_cache_with (ok, []) fs path writeOk now = (false, [], fs) := by
  cases ok <;> rfl

/-- Helper: a resolved cache path is never the empty string. -/
theorem vst2_cache_file_ne_empty (path : String) : vst2_cache_file path ≠ "" := by
  intro h
  have hlen := congrArg String.length h
  rw [vst2_cache_file] at hlen
  rw [String.length_append, String.length_append] at hlen
  have h4 : "vst/".length = 4 := rfl
  have h4' : ".v2i".length = 4 := rfl
  have h0 : "".length = 0 := rfl
  rw [h4, h4', h0] at hlen
  omega

/-- Helper: closed form of `vst2_valid_cache_file` — the glib file test on
the cache file collapses to an existence check, after which only the two
stat results and the strict mtime comparison matter. -/
theorem valid_cache_file_eq (fs : FS) (path : String) (verbose : Bool) :
    vst2_valid_cache_file fs path verbose =
      match fs.files path, fs.files (vst2_cache_file path) with
      | some bi, some ci =>
        if bi.mtime < ci.mtime then vst2_cache_file path else ""
      | _, _ => "" := by
  unfold vst2_valid_cache_file fileTestExistsOrRegular
  cases hc : fs.files (vst2_cache_file path) <;>
    cases hb : fs.files path <;> simp [hb, hc]

/-- C2 counterexample: a binary and its cache file with equal modification
times, both existing regular files — the claim calls this valid, but
`vst2_valid_cache_file` uses a strict comparison and reports the cache as
stale (empty result). -/
theorem valid_cache_file_tie_counterexample :
    let fs : FS := ⟨fun f =>
      if f = vst2_cache_file "p" then some ⟨true, 5, 0⟩
      else if f = "p" then some ⟨true, 5, 0⟩ else none⟩
    fs.files (vst2_cache_file "p") = some ⟨true, 5, 0⟩ ∧
    (⟨true, 5, 0⟩ : FileInfo).isRegular = true ∧
    fs.files "p" = some ⟨true, 5, 0⟩ ∧
    ((5 : Int) ≤ 5) ∧
    vst2_valid_cache_file fs "p" false = "" := by decide

/-- C2 (amended): the cache is reported valid exactly when the cache file
exists (glib ORs the EXISTS and IS_REGULAR tests, so bare existence passes),
the binary can be stat'ed, and the binary's modification time is strictly
less than the cache file's — equal timestamps count as stale; when valid,
the resolved cache path itself is returned. -/
theorem valid_cache_file_characterization (fs : FS) (path : String)
    (verbose : Bool) :
    (vst2_valid_cache_file fs path verbose ≠ "" ↔
      (∃ bi ci, fs.files path = some bi ∧
        fs.files (vst2_cache_file path) = some ci ∧ bi.mtime < ci.mtime)) ∧
    (vst2_valid_cache_file fs path verbose = "" ∨
      vst2_valid_cache_file fs path verbose = vst2_cache_file path) := by
  rw [valid_cache_file_eq fs path verbose]
  cases hb : fs.files path with
  | none => simp
  | some bi =>
    cases hc : fs.files (vst2_cache_file path) with
    | none => simp
    | some ci =>
      dsimp only
      by_cases hlt : bi.mtime < ci.mtime
      · rw [if_pos hlt]
        exact ⟨⟨fun _ => ⟨bi, ci, rfl, rfl, hlt⟩,
          fun _ => vst2_cache_file_ne_empty path⟩, Or.inr rfl⟩
      · rw [if_neg hlt]
        refine ⟨⟨fun h => absurd rfl h, fun hex => ?_⟩, Or.inl rfl⟩
        obtain ⟨bi2, ci2, h1, h2, h3⟩ := hex
        rw [Option.some.injEq] at h1 h2
        subst h1
        subst h2
        exact absurd h3 hlt

/-- C2 witness: a concrete filesystem where the binary is strictly older than
its cache file, reported valid through the characterization. -/
theorem valid_cache_file_characterization_witness :
    vst2_valid_cache_file
      ⟨fun f => if f = vst2_cache_file "q" then some ⟨true, 9, 0⟩
        else if f = "q" then some ⟨true, 3, 0⟩ else none⟩ "q" false ≠ "" :=
  (valid_cache_file_characterization _ "q" false).1.mpr
    ⟨⟨true, 3, 0⟩, ⟨true, 9, 0⟩, by decide, by decide, by decide⟩

/-- C5: on a failed document write `vst2_save_cache_file` reports failure and
leaves the filesystem — in particular the cache file's timestamp — exactly
as it was; on a successful write it reports success and advances the cache
file's modification time to the maximum of the binary's mtime and the
fresh write time, which is at least the binary's mtime. -/
theorem save_cache_file_timestamp (fs : FS) (path : String) (now : Int)
    (bi : FileInfo) (hb : fs.files path = some bi)
    (hne : path ≠ vst2_cache_file path) :
    vst2_save_cache_file fs path false now = (false, fs) ∧
    (vst2_save_cache_file fs path true now).1 = true ∧
    (vst2_save_cache_file fs path true now).2.files (vst2_cache_file path) =
      some { isRegular := true, mtime := max bi.mtime now, atime := now } ∧
    bi.mtime ≤ max bi.mtime now := by
  have hmain : vst2_save_cache_file fs path true now =
      (true, touch_cachefile
        (fs.setFile (vst2_cache_file path) ⟨true, now, now⟩) path
        (vst2_cache_file path)) := rfl
  refine ⟨rfl, by rw [hmain], ?_, le_max_left _ _⟩
  rw [hmain]
  have h1 : (fs.setFile (vst2_cache_file path) ⟨true, now, now⟩).files path =
      some bi := by
    simp [FS.setFile, hne, hb]
  have h2 : (fs.setFile (vst2_cache_file path) ⟨true, now, now⟩).files
      (vst2_cache_file path) = some ⟨true, now, now⟩ := by
    simp [FS.setFile]
  simp only [touch_cachefile, h1, h2]
  simp [FS.setFile]

/-- C5 witness: concrete successful save with binary mtime 10 and write time
20 leaves the cache file stamped `max 10 20`. -/
theorem save_cache_file_timestamp_witness :
    (vst2_save_cache_file
      ⟨fun f => if f = "p" then some ⟨true, 10, 0⟩ else none⟩
      "p" true 20).2.files (vst2_cache_file "p") =
      some ⟨true, max (10 : Int) 20, 20⟩ :=
  (save_cache_file_timestamp
    ⟨fun f => if f = "p" then some ⟨true, 10, 0⟩ else none⟩
    "p" 20 ⟨true, 10, 0⟩ rfl (by decide)).2.2.1

/-- Helper: the category switch yields a string starting with `"Shell"` only
for the shell category code. -/
theorem categoryName_take_shell (c : Int) :
    ((categoryName c).take 5 = "Shell") ↔ c = kPlugCategShell := by
  unfold categoryName kPlugCategEffect kPlugCategSynth kPlugCategAnalysis
    kPlugCategMastering kPlugCategSpacializer kPlugCategRoomFx kPlugSurroundFx
    kPlugCategRestoration kPlugCategOfflineProcess kPlugCategShell
    kPlugCategGenerator
  repeat' split
  all_goals
    first
      | exact iff_of_true (by decide) (by omega)
      | exact iff_of_false (by decide) (by omega)

/-- Helper: probing a loadable non-shell plugin appends exactly its one
descriptor, succeeds, and triggers no nested sub-probe. -/
theorem instantiate_nonshell (f : Nat) (env : ProbeEnv) (hn : String)
    (id : Int) (infos : List VSTInfo) (q : AEffect) (he : env id = some q)
    (hq : q.plugCategory ≠ kPlugCategShell) :
    vstfx_instantiate_and_get_info (f + 1) env hn id infos =
      (true, infos ++ [vstfx_parse_vst_state hn q], []) := by
  have hcat : (vstfx_parse_vst_state hn q).Category = categoryName q.plugCategory :=
    rfl
  rw [vstfx_instantiate_and_get_info, he]
  show vstfx_info_from_plugin_aux (vstfx_instantiate_and_get_info f env hn)
      hn q infos = (true, infos ++ [vstfx_parse_vst_state hn q], [])
  simp only [vstfx_info_from_plugin_aux]
  rw [if_neg (fun hsh => hq ((categoryName_take_shell q.plugCategory).mp
    (by rw [hcat] at hsh; exact hsh)))]

/-- Helper: renaming the last element of a list with an explicit last
element. -/
theorem replaceLastName_append_singleton (xs : List VSTInfo) (y : VSTInfo)
    (nm : String) :
    replaceLastName (xs ++ [y]) nm = xs ++ [{ y with name := nm }] := by
  induction xs with
  | nil => rfl
  | cons x xs ih =>
    cases xs with
    | nil => rfl
    | cons x2 xs2 =>
      simp only [List.cons_append] at ih ⊢
      rw [replaceLastName, ih]

/-- Helper: the descriptor a successful sub-probe of enumeration entry `x`
contributes — `none` when the entry is the terminator or the load fails,
otherwise the sub-plugin's parsed descriptor with its name overwritten by
the enumerated name (defaulted to `"Unknown"` when empty). -/
def shellSubDescriptor (env : ProbeEnv) (hn : String) (x : Int × String) :
    Option VSTInfo :=
  if x.1 = 0 then none
  else (env x.1).map (fun q => { vstfx_parse_vst_state hn q with
    name := if x.2.length = 0 then "Unknown" else x.2 })

/-- Helper: closed form of the shell re-probe loop when no enumerated entry
leads to a nested shell — the descriptor list grows by exactly the
successful sub-probe descriptors in enumeration order, and the probed ids
are exactly the non-zero enumerated ids. -/
theorem shellLoopAux_spec (f : Nat) (env : ProbeEnv) (hn : String) :
    ∀ (l : List (Int × String)) (infos : List VSTInfo),
    (∀ x ∈ l, x.1 ≠ 0 → ∀ q, env x.1 = some q →
      q.plugCategory ≠ kPlugCategShell) →
    shellLoopAux (vstfx_instantiate_and_get_info (f + 1) env hn) l infos =
      (infos ++ l.filterMap (shellSubDescriptor env hn),
        (l.filter (fun x => x.1 ≠ 0)).map (fun x => x.1)) := by
  intro l
  induction l with
  | nil => intro infos _; simp [shellLoopAux]
  | cons hd tl ih =>
    intro infos h
    obtain ⟨id, nm⟩ := hd
    by_cases hid : id = 0
    · subst hid
      simp only [shellLoopAux, if_pos rfl]
      rw [ih infos (fun x hx => h x (List.mem_cons_of_mem _ hx))]
      simp [shellSubDescriptor]
    · simp only [shellLoopAux, if_neg hid]
      cases he : env id with
      | none =>
        have hr : vstfx_instantiate_and_get_info (f + 1) env hn id infos =
            (false, infos, []) := by
          rw [vstfx_instantiate_and_get_info, he]
        rw [hr, if_neg Bool.false_ne_true,
          ih _ (fun x hx => h x (List.mem_cons_of_mem _ hx))]
        simp [shellSubDescriptor, he, hid]
      | some q =>
        have hq : q.plugCategory ≠ kPlugCategShell :=
          h (id, nm) (List.mem_cons_self _ _) hid q he
        have hr : vstfx_instantiate_and_get_info (f + 1) env hn id infos =
            (true, infos ++ [vstfx_parse_vst_state hn q], []) :=
          instantiate_nonshell f env hn id infos q he hq
        rw [hr, if_pos rfl, replaceLastName_append_singleton,
          ih _ (fun x hx => h x (List.mem_cons_of_mem _ hx))]
        simp [shellSubDescriptor, he, hid, List.append_assoc]

/-- Helper: the enumeration collector on a response stream of non-zero
entries followed by the 0 terminator. -/
theorem collectShellIds_terminated (resp : List (Int × Option String))
    (t : Option String) (h : ∀ x ∈ resp, x.1 ≠ 0) :
    collectShellIds (resp ++ [(0, t)]) =
      resp.map (fun x => (x.1, x.2.getD "Unknown")) ++ [(0, t.getD "Unknown")] := by
  induction resp with
  | nil => simp [collectShellIds]
  | cons hd tl ih =>
    obtain ⟨id, nm⟩ := hd
    have hid : id ≠ 0 := h (id, nm) (List.mem_cons_self _ _)
    simp only [List.cons_append, collectShellIds, if_neg hid, List.append_eq]
    rw [ih (fun x hx => h x (List.mem_cons_of_mem _ hx))]
    simp

/-- Helper: `filterMap` preserves length when the function succeeds on every
element. -/
theorem filterMap_length_of_isSome {α β : Type} (F : α → Option β) :
    ∀ l : List α, (∀ x ∈ l, (F x).isSome = true) →
      (l.filterMap F).length = l.length := by
  intro l
  induction l with
  | nil => intro _; simp
  | cons hd tl ih =>
    intro h
    have hhd := h hd (List.mem_cons_self _ _)
    cases hF : F hd with
    | none => rw [hF] at hhd; simp at hhd
    | some b =>
      simp [List.filterMap_cons, hF,
        ih (fun x hx => h x (List.mem_cons_of_mem _ hx))]

/-- A concrete non-shell sub-plugin for the shell-expansion examples. -/
def pSubEx : AEffect where
  flags := 0
  uniqueID := 7
  numInputs := 1
  numOutputs := 2
  numParams := 0
  effectName := some "SubPlug"
  productString := none
  vendorString := none
  plugCategory := 1
  vstVersion := 2
  canDo := fun _ => 0
  getParamName := fun _ => none
  shellNext := []

/-- A concrete shell plugin enumerating one sub-plugin (id 7) and then the 0
terminator. -/
def pShellEx : AEffect where
  flags := 0
  uniqueID := 99
  numInputs := 0
  numOutputs := 0
  numParams := 0
  effectName := some "TheShell"
  productString := none
  vendorString := none
  plugCategory := 10
  vstVersion := 2
  canDo := fun _ => 0
  getParamName := fun _ => none
  shellNext := [(7, some "Sub"), (0, none)]

/-- Load/instantiate outcomes for the example: requested id 0 yields the
shell itself, id 7 its sub-plugin. -/
def envEx : ProbeEnv := fun i =>
  if i = 0 then some pShellEx else if i = 7 then some pSubEx else none

/-- C3 counterexample: a shell binary whose enumeration yields exactly one
non-zero (id, name) pair followed by the 0 terminator produces a result list
of length 2, not 1 — the outer shell instance's own descriptor is pushed
before shell expansion and stays in the list. -/
theorem shell_expansion_counterexample :
    pShellEx.shellNext = [((7 : Int), some "Sub"), (0, none)] ∧
    ((7 : Int) ≠ 0) ∧
    (vstfx_info_from_plugin 2 envEx "mod" pShellEx []).1 = true ∧
    (vstfx_info_from_plugin 2 envEx "mod" pShellEx []).2.1.length = 2 ∧
    (vstfx_info_from_plugin 2 envEx "mod" pShellEx []).2.1.length ≠ 1 := by
  refine ⟨rfl, by decide, by decide, by decide, by decide⟩

/-- C3 (amended): a shell binary enumerating N non-zero (id, name) pairs
followed by the 0 terminator, all of whose sub-plugins load as non-shell
plugins, yields exactly N+1 descriptors: the outer shell's own descriptor
first, then one per sub-plugin; the ids passed to the sub-probe are exactly
the N non-zero enumerated ids, so id 0 is never re-probed; and every
descriptor's id is the self-reported uniqueID of the shell or of one of the
loaded sub-plugins. -/
theorem shell_expansion_descriptors (f : Nat) (env : ProbeEnv) (hn : String)
    (p : AEffect) (resp : List (Int × Option String)) (t : Option String)
    (hcat : p.plugCategory = kPlugCategShell)
    (hresp : p.shellNext = resp ++ [(0, t)])
    (hnz : ∀ x ∈ resp, x.1 ≠ 0)
    (henv : ∀ x ∈ resp, ∃ q, env x.1 = some q ∧
      q.plugCategory ≠ kPlugCategShell) :
    (vstfx_info_from_plugin (f + 1) env hn p []).1 = true ∧
    (vstfx_info_from_plugin (f + 1) env hn p []).2.1.length = resp.length + 1 ∧
    (vstfx_info_from_plugin (f + 1) env hn p []).2.1.head? =
      some (vstfx_parse_vst_state hn p) ∧
    (vstfx_info_from_plugin (f + 1) env hn p []).2.2 =
      resp.map (fun x => x.1) ∧
    (0 : Int) ∉ (vstfx_info_from_plugin (f + 1) env hn p []).2.2 ∧
    (∀ d ∈ (vstfx_info_from_plugin (f + 1) env hn p []).2.1,
      d.UniqueID = p.uniqueID ∨
        ∃ x ∈ resp, ∃ q, env x.1 = some q ∧ d.UniqueID = q.uniqueID) := by
  have hshell : (vstfx_parse_vst_state hn p).Category.take 5 = "Shell" := by
    have hc : (vstfx_parse_vst_state hn p).Category =
        categoryName p.plugCategory := rfl
    rw [hc, hcat]
    decide
  have hcollect := collectShellIds_terminated resp t hnz
  have hcond : ∀ x ∈ resp.map (fun x => (x.1, x.2.getD "Unknown")) ++
      [((0 : Int), t.getD "Unknown")], x.1 ≠ 0 → ∀ q, env x.1 = some q →
      q.plugCategory ≠ kPlugCategShell := by
    intro x hx hx0 q hq
    rcases List.mem_append.mp hx with hx1 | hx1
    · obtain ⟨x0, hx0mem, rfl⟩ := List.mem_map.mp hx1
      obtain ⟨q2, hq2, hq2c⟩ := henv x0 hx0mem
      rw [hq2] at hq
      cases hq
      exact hq2c
    · rw [List.mem_singleton] at hx1
      subst hx1
      exact absurd rfl hx0
  have hval : vstfx_info_from_plugin (f + 1) env hn p [] =
      (true, [vstfx_parse_vst_state hn p] ++
        (resp.map (fun x => (x.1, x.2.getD "Unknown")) ++
          [((0 : Int), t.getD "Unknown")]).filterMap
            (shellSubDescriptor env hn),
        ((resp.map (fun x => (x.1, x.2.getD "Unknown")) ++
          [((0 : Int), t.getD "Unknown")]).filter
            (fun x => x.1 ≠ 0)).map (fun x => x.1)) := by
    simp only [vstfx_info_from_plugin, vstfx_info_from_plugin_aux,
      List.nil_append]
    rw [if_pos hshell, hresp, hcollect,
      shellLoopAux_spec f env hn _ [vstfx_parse_vst_state hn p] hcond]
  have hsub_isSome : ∀ x ∈ resp.map (fun x => (x.1, x.2.getD "Unknown")),
      ((shellSubDescriptor env hn) x).isSome = true := by
    intro x hx
    obtain ⟨x0, hm, rfl⟩ := List.mem_map.mp hx
    obtain ⟨q2, hq2, _⟩ := henv x0 hm
    unfold shellSubDescriptor
    rw [if_neg (hnz x0 hm), hq2]
    rfl
  have hfm : (resp.map (fun x => (x.1, x.2.getD "Unknown")) ++
      [((0 : Int), t.getD "Unknown")]).filterMap (shellSubDescriptor env hn) =
      (resp.map (fun x => (x.1, x.2.getD "Unknown"))).filterMap
        (shellSubDescriptor env hn) := by
    rw [List.filterMap_append]
    simp [shellSubDescriptor]
  have hlen : ((resp.map (fun x => (x.1, x.2.getD "Unknown"))).filterMap
      (shellSubDescriptor env hn)).length = resp.length := by
    rw [filterMap_length_of_isSome _ _ hsub_isSome, List.length_map]
  have hfil : (resp.map (fun x => (x.1, x.2.getD "Unknown")) ++
      [((0 : Int), t.getD "Unknown")]).filter (fun x => x.1 ≠ 0) =
      resp.map (fun x => (x.1, x.2.getD "Unknown")) := by
    rw [List.filter_append]
    have h1 : ([((0 : Int), t.getD "Unknown")].filter
        (fun x => x.1 ≠ 0) : List (Int × String)) = [] := by simp
    rw [h1, List.append_nil, List.filter_eq_self]
    intro a ha
    obtain ⟨x0, hm, rfl⟩ := List.mem_map.mp ha
    simpa using hnz x0 hm
  refine ⟨by rw [hval], ?_, by rw [hval]; rfl, ?_, ?_, ?_⟩
  · rw [hval]
    simp only [List.length_append, hfm, hlen, List.length_singleton]
    omega
  · rw [hval]
    simp only [hfil, List.map_map]
    rfl
  · rw [hval]
    simp only [hfil, List.map_map]
    intro hmem
    obtain ⟨x0, hm, hx0⟩ := List.mem_map.mp hmem
    exact hnz x0 hm hx0
  · rw [hval]
    intro d hd
    rcases List.mem_append.mp hd with h1 | h1
    · rw [List.mem_singleton] at h1
      subst h1
      exact Or.inl rfl
    · obtain ⟨a, ha, hFa⟩ := List.mem_filterMap.mp h1
      rcases List.mem_append.mp ha with h2 | h2
      · obtain ⟨x0, hm, rfl⟩ := List.mem_map.mp h2
        rw [shellSubDescriptor, if_neg (hnz x0 hm)] at hFa
        obtain ⟨q2, hq2, hq2d⟩ := Option.map_eq_some'.mp hFa
        refine Or.inr ⟨x0, hm, q2, hq2, ?_⟩
        subst hq2d
        rfl
      · rw [List.mem_singleton] at h2
        subst h2
        rw [shellSubDescriptor, if_pos rfl] at hFa
        cases hFa

/-- C3 witness: the concrete one-sub-plugin shell — two descriptors, probed
ids exactly `[7]`, id 0 never re-probed. -/
theorem shell_expansion_descriptors_witness :
    (vstfx_info_from_plugin 2 envEx "mod" pShellEx []).1 = true ∧
    (vstfx_info_from_plugin 2 envEx "mod" pShellEx []).2.1.length = 2 ∧
    (vstfx_info_from_plugin 2 envEx "mod" pShellEx []).2.2 = [(7 : Int)] ∧
    (0 : Int) ∉ (vstfx_info_from_plugin 2 envEx "mod" pShellEx []).2.2 := by
  have h := shell_expansion_descriptors 1 envEx "mod" pShellEx
    [(7, some "Sub")] none rfl rfl (by decide)
    (fun x hx => by
      rw [List.mem_singleton] at hx
      subst hx
      exact ⟨pSubEx, rfl, by decide⟩)
  exact ⟨h.1, by simpa using h.2.1, by simpa using h.2.2.2.1, h.2.2.2.2.1⟩

end VST2Scan
